import Mathlib

/-!
Verification of the emaux-api client (src/api.py) against its specification.

The file shallow-embeds the code of src/api.py: the static table
VALID_PARAMETERS, the validation logic inlined in API.set_parameter
(factored here into the pure function validate, exactly the branch
structure of the Python code), the decoders EmauxPumpData.from_dict and
EmauxPumpSettings.from_dict, and the seven client operations.  Each
operation is modelled as a pure function of the outcome of its single
HTTP round trip (a TransportResult), paired with the number of HTTP
requests it issued.
-/

namespace Emaux

/-- JSON values as produced by the aiohttp response.json() call.  Numbers
are modelled as exact rationals: Python compares int and float values
exactly, and all numerals occurring in this development (including the
float 1000.5) are exactly representable.  JSON arrays are omitted: no
claim involves one, and every consumer of a decoded body treats any
non-object value uniformly (dict equality with a non-dict is False and
subscripting a non-dict raises TypeError), behaviour already represented
by the other non-object constructors. -/
inductive Json where
  | jnull
  | jbool (b : Bool)
  | jnum (q : ℚ)
  | jstr (s : String)
  | jobj (fields : List (String × Json))

/-- Python values passed as the value argument of set_parameter (typed
Any in the source).  Floats are exact rationals, ints are integers,
strings are strings; no claim involves other Python types. -/
inductive Value where
  | vInt (n : Int)
  | vFloat (q : ℚ)
  | vStr (s : String)
deriving DecidableEq

/-- The kinds of entry found in the VALID_PARAMETERS table of src/api.py:
a two-element tuple (closed range), a set of strings (enumeration), None
(free-form string), and one bare integer (the Language entry, whose
declared domain is the plain int 0, not a tuple). -/
inductive ParamDomain where
  | range (lo hi : Int)
  | enumSet (tokens : List String)
  | freeString
  | singlePoint (n : Int)
deriving DecidableEq

/-- The distinct validation failures of API.set_parameter.  The first
five correspond to the five distinct ValueError messages raised by the
validation block (unknown name; value outside a range; value not in an
enumerated set; non-string for a free-string entry; the final else
branch, reached when the registered domain is neither list/set, tuple,
nor None — the Language entry).  pyTypeError models the uncaught Python
TypeError raised when a string value is compared against the integer
bounds of a range entry. -/
inductive ValidationError where
  | unknownParameter
  | outOfRange
  | invalidEnumValue
  | typeMismatch
  | invalidDomain
  | pyTypeError
deriving DecidableEq

/-- Failures escaping from the from_dict decoders: a KeyError for a
missing key, a ValueError from int() applied to a non-numeric string,
and a TypeError from subscripting a non-dict body or applying int() to a
value that is not a string, number or bool. -/
inductive DecodeError where
  | keyError (k : String)
  | valueError
  | typeError
deriving DecidableEq

/-- The distinct exception outcomes observable from a client operation:
APIConnectionError (raised from aiohttp.ClientError, carrying the
underlying cause), a validation ValueError from set_parameter, and a
decoding error escaping from from_dict (KeyError/ValueError/TypeError,
none of which is caught by the except aiohttp.ClientError handler). -/
inductive ApiError where
  | connectivity (cause : String)
  | validation (e : ValidationError)
  | decode (e : DecodeError)
deriving DecidableEq

/-- Outcome of the single HTTP round trip an operation performs.
netFail models an aiohttp.ClientError raised anywhere in the exchange
(timeout, connection refused, DNS failure, malformed transport
response), carrying the underlying cause; resp models a completed
exchange with its status code and parsed JSON body. -/
inductive TransportResult where
  | netFail (cause : String)
  | resp (status : Nat) (body : Json)

/-- The VALID_PARAMETERS table of src/api.py, in source order.  Tuples
become ParamDomain.range, the LangSel set becomes ParamDomain.enumSet
(listed in source order; only membership matters), None becomes
ParamDomain.freeString, and the Language entry, written (0) in the
source — which in Python is the bare int 0, not a tuple — becomes
ParamDomain.singlePoint 0. -/
def VALID_PARAMETERS : List (String × ParamDomain) := [
  ("RunStop", .range 1 2),
  ("SetCurrentSpeed", .range 800 3400),
  ("SetSpeedSelected", .range 1 4),
  ("Speed1", .range 800 3400),
  ("Speed2", .range 800 3400),
  ("Speed3", .range 800 3400),
  ("Speed4", .range 800 3400),
  ("Speed1Title", .freeString),
  ("Speed2Title", .freeString),
  ("Speed3Title", .freeString),
  ("Speed4Title", .freeString),
  ("Sch1En", .range 0 1),
  ("Sch2En", .range 0 1),
  ("Sch3En", .range 0 1),
  ("Sch4En", .range 0 1),
  ("Sch1TimeOnHour", .range 0 23),
  ("Sch2TimeOnHour", .range 0 23),
  ("Sch3TimeOnHour", .range 0 23),
  ("Sch4TimeOnHour", .range 0 23),
  ("Sch1TimeOnMin", .range 0 59),
  ("Sch2TimeOnMin", .range 0 59),
  ("Sch3TimeOnMin", .range 0 59),
  ("Sch4TimeOnMin", .range 0 59),
  ("Sch1TimeOffHour", .range 0 23),
  ("Sch2TimeOffHour", .range 0 23),
  ("Sch3TimeOffHour", .range 0 23),
  ("Sch4TimeOffHour", .range 0 23),
  ("Sch1TimeOffMin", .range 0 59),
  ("Sch2TimeOffMin", .range 0 59),
  ("Sch3TimeOffMin", .range 0 59),
  ("Sch4TimeOffMin", .range 0 59),
  ("Sch1SpeedSelect", .range 1 4),
  ("Sch2SpeedSelect", .range 1 4),
  ("Sch3SpeedSelect", .range 1 4),
  ("Sch4SpeedSelect", .range 1 4),
  ("SchTitle1", .freeString),
  ("SchTitle2", .freeString),
  ("SchTitle3", .freeString),
  ("SchTitle4", .freeString),
  ("Frozen_Enable", .range 0 1),
  ("Frozen_LastingTime", .range 1 12),
  ("Frozen_Speed", .range 1200 3450),
  ("Frozen_Temperature", .range 2 10),
  ("Language", .singlePoint 0),
  ("LangSel", .enumSet ["en", "cn", "fr", "de", "es", "it", "ru"]),
  ("WifiSetToDefault", .range 0 1),
  ("Reset", .range 0 1)]

/-- Key lookup in VALID_PARAMETERS (Python: name in VALID_PARAMETERS and
VALID_PARAMETERS[name]; the keys are pairwise distinct, so first match
equals dict lookup). -/
def lookupParam (name : String) : Option ParamDomain :=
  (VALID_PARAMETERS.find? (fun p => p.1 == name)).map (fun p => p.2)

/-- Python membership test value in param_range for an enumerated entry:
the tokens are strings, and Python equality between a string and an int
or float is False, so only an exactly equal string is a member
(case-sensitive). -/
def pyMemStr (v : Value) (tokens : List String) : Bool :=
  match v with
  | .vStr s => tokens.contains s
  | _ => false

/-- Python chained comparison min_val <= value <= max_val against integer
bounds: exact for int and float values; comparing a str against an int
raises TypeError, which the source does not catch. -/
def pyChainedLe (lo : Int) (v : Value) (hi : Int) : Except ValidationError Bool :=
  match v with
  | .vInt n => .ok (decide (lo ≤ n) && decide (n ≤ hi))
  | .vFloat q => .ok (decide ((lo : ℚ) ≤ q) && decide (q ≤ (hi : ℚ)))
  | .vStr _ => .error .pyTypeError

/-- The validation block of API.set_parameter (lines 271-286 of
src/api.py), factored into a pure function.  The Python code dispatches
by isinstance in the order list/set, tuple, None, else; the four domain
kinds are disjoint, so matching on the tagged domain is equivalent.  The
singlePoint (Language) entry matches none of the three isinstance tests
and always reaches the final else branch. -/
def validate (name : String) (v : Value) : Except ValidationError Unit :=
  match lookupParam name with
  | none => .error .unknownParameter
  | some (.enumSet tokens) =>
      if pyMemStr v tokens then .ok () else .error .invalidEnumValue
  | some (.range lo hi) =>
      match pyChainedLe lo v hi with
      | .error e => .error e
      | .ok b => if b then .ok () else .error .outOfRange
  | some .freeString =>
      match v with
      | .vStr _ => .ok ()
      | _ => .error .typeMismatch
  | some (.singlePoint _) => .error .invalidDomain

/-- The exact rational value of the Python float 1000.5 (exactly
representable in binary floating point), written as an explicit reduced
fraction so that it evaluates by kernel reduction. -/
def q1000p5 : ℚ := ⟨2001, 2, by norm_num, by norm_num⟩


/-- Python subscript data[k] on a decoded JSON body: returns the value
under k for a dict that has the key, raises KeyError k for a dict that
lacks it, and raises TypeError when the body is not a dict.  Parsed JSON
objects have pairwise distinct keys, so first match equals dict
lookup. -/
def dictGet (j : Json) (k : String) : Except DecodeError Json :=
  match j with
  | .jobj fields =>
      match fields.find? (fun p => p.1 == k) with
      | some p => .ok p.2
      | none => .error (.keyError k)
  | _ => .error .typeError

/-- ASCII whitespace stripped by Python int() from a string argument. -/
def isPyWhitespace (c : Char) : Bool :=
  c = ' ' || c = '\t' || c = '\n' || c = '\r' || c = '\x0b' || c = '\x0c'

/-- Python int(s) on a string: optional surrounding whitespace, an
optional sign, then one or more ASCII digits; anything else raises
ValueError.  (Unicode digits and underscore digit grouping, which Python
also accepts, are not modelled; no payload in this development uses
them.) -/
def pyIntOfString (s : String) : Option Int :=
  let stripped := ((s.toList.dropWhile isPyWhitespace).reverse.dropWhile
    isPyWhitespace).reverse
  match stripped with
  | [] => none
  | c :: rest =>
      let digits := if c = '+' || c = '-' then rest else c :: rest
      if digits ≠ [] ∧ digits.all (fun d => d.isDigit) then
        let n : Nat := digits.foldl (fun acc d => 10 * acc + (d.toNat - '0'.toNat)) 0
        some (if c = '-' then -(n : Int) else (n : Int))
      else none

/-- Truncation of a rational toward zero: the value of Python int()
applied to a float (exact because the stored fraction is reduced). -/
def pyTrunc (q : ℚ) : Int := q.num.tdiv (q.den : Int)

/-- Python int(x) on a decoded JSON value: parses a string (ValueError
when not numeric), truncates a number toward zero, maps True/False to
1/0, and raises TypeError on None or a dict. -/
def pyInt (j : Json) : Except DecodeError Int :=
  match j with
  | .jstr s =>
      match pyIntOfString s with
      | some n => .ok n
      | none => .error .valueError
  | .jnum q => .ok (pyTrunc q)
  | .jbool b => .ok (if b then 1 else 0)
  | _ => .error .typeError

/-- Python comparison value == "1" on a decoded JSON value: True exactly
for the string "1" (an int or bool never equals a str in Python). -/
def pyEqOne (j : Json) : Bool :=
  match j with
  | .jstr s => s == "1"
  | _ => false

/-- Subscript then int(), the compound int(data[k]) used throughout the
decoders. -/
def pyIntAt (d : Json) (k : String) : Except DecodeError Int := do
  pyInt (← dictGet d k)

/-- The pump-state record of src/api.py (dataclass EmauxPumpData).
Fields the Python code stores without conversion (current_time,
fault_code, model) keep the raw JSON value, since the dataclass performs
no runtime conversion on them. -/
structure EmauxPumpData where
  current_time : Json
  current_speed : Int
  current_watts : Int
  running_status : Bool
  fault_flag : Int
  fault_code : Json
  speed_selected : Int
  current_temperature : Int
  free_mode_status : Bool
  current_schedule : Int
  current_gpm : Int
  speed_count : Int
  schedule_count : Int
  model : Json

/-- EmauxPumpData.from_dict of src/api.py: field reads in the exact
source order, so the first failing read determines the escaping error.
The temperature is read under the misspelled wire key CurrentTemperuture
(the upstream API typo noted in the source) and exposed under the
corrected field name current_temperature. -/
def EmauxPumpData.from_dict (data : Json) : Except DecodeError EmauxPumpData := do
  let current_time ← dictGet data "CurrentTime"
  let current_speed ← pyIntAt data "CurrentSpeed"
  let current_watts ← pyIntAt data "CurrentWatts"
  let running_status ← dictGet data "RunningStatus"
  let fault_flag ← pyIntAt data "FaultFlag"
  let fault_code ← dictGet data "FaultCode"
  let speed_selected ← pyIntAt data "SpeedSelected"
  let current_temperature ← pyIntAt data "CurrentTemperuture"
  let free_mode_status ← dictGet data "FreeModeStatus"
  let current_schedule ← pyIntAt data "CurrentSchedule"
  let current_gpm ← pyIntAt data "CurrentGPM"
  let speed_count ← pyIntAt data "SpeedCount"
  let schedule_count ← pyIntAt data "ScheduleCount"
  let model ← dictGet data "Model"
  pure {
    current_time := current_time
    current_speed := current_speed
    current_watts := current_watts
    running_status := pyEqOne running_status
    fault_flag := fault_flag
    fault_code := fault_code
    speed_selected := speed_selected
    current_temperature := current_temperature
    free_mode_status := pyEqOne free_mode_status
    current_schedule := current_schedule
    current_gpm := current_gpm
    speed_count := speed_count
    schedule_count := schedule_count
    model := model }

/-- The schedule record of src/api.py (dataclass Schedule); the title is
stored without conversion. -/
structure Schedule where
  enabled : Bool
  time_on_hour : Int
  time_on_min : Int
  time_off_hour : Int
  time_off_min : Int
  speed_select : Int
  title : Json

/-- One iteration of the schedule loop in EmauxPumpSettings.from_dict:
builds the Schedule for wire group i from the keys Sch iEn,
Sch iTimeOnHour, ..., SchTitle i (field reads in source order). -/
def parseSchedule (data : Json) (i : Nat) : Except DecodeError Schedule := do
  let en ← dictGet data ("Sch" ++ toString i ++ "En")
  let onHour ← pyIntAt data ("Sch" ++ toString i ++ "TimeOnHour")
  let onMin ← pyIntAt data ("Sch" ++ toString i ++ "TimeOnMin")
  let offHour ← pyIntAt data ("Sch" ++ toString i ++ "TimeOffHour")
  let offMin ← pyIntAt data ("Sch" ++ toString i ++ "TimeOffMin")
  let sel ← pyIntAt data ("Sch" ++ toString i ++ "SpeedSelect")
  let title ← dictGet data ("SchTitle" ++ toString i)
  pure {
    enabled := pyEqOne en
    time_on_hour := onHour
    time_on_min := onMin
    time_off_hour := offHour
    time_off_min := offMin
    speed_select := sel
    title := title }

/-- The settings record of src/api.py (dataclass EmauxPumpSettings);
speed titles and the language selection string are stored without
conversion. -/
structure EmauxPumpSettings where
  current_min : Int
  current_hour : Int
  run_stop : Bool
  set_current_speed : Int
  set_speed_selected : Int
  speeds : List Int
  speed_titles : List Json
  schedules : List Schedule
  language : Int
  lang_sel : Json
  frozen_enable : Bool
  frozen_lasting_time : Int
  frozen_speed : Int
  frozen_temperature : Int
  wifi_set_to_default : Bool
  reset : Bool

/-- EmauxPumpSettings.from_dict of src/api.py, evaluation in the exact
source order: the four speeds, the four speed titles, the schedule loop
for i = 1..4 (unrolled; the Python for-loop appends in that order), then
the remaining constructor arguments left to right. -/
def EmauxPumpSettings.from_dict (data : Json) : Except DecodeError EmauxPumpSettings := do
  let sp1 ← pyIntAt data "Speed1"
  let sp2 ← pyIntAt data "Speed2"
  let sp3 ← pyIntAt data "Speed3"
  let sp4 ← pyIntAt data "Speed4"
  let st1 ← dictGet data "Speed1Title"
  let st2 ← dictGet data "Speed2Title"
  let st3 ← dictGet data "Speed3Title"
  let st4 ← dictGet data "Speed4Title"
  let sch1 ← parseSchedule data 1
  let sch2 ← parseSchedule data 2
  let sch3 ← parseSchedule data 3
  let sch4 ← parseSchedule data 4
  let current_min ← pyIntAt data "CurrentMin"
  let current_hour ← pyIntAt data "CurrentHour"
  let run_stop ← dictGet data "RunStop"
  let set_current_speed ← pyIntAt data "SetCurrentSpeed"
  let set_speed_selected ← pyIntAt data "SetSpeedSelected"
  let language ← pyIntAt data "Language"
  let lang_sel ← dictGet data "LangSel"
  let frozen_enable ← dictGet data "Frozen_Enable"
  let frozen_lasting_time ← pyIntAt data "Frozen_LastingTime"
  let frozen_speed ← pyIntAt data "Frozen_Speed"
  let frozen_temperature ← pyIntAt data "Frozen_Temperature"
  let wifi_set_to_default ← dictGet data "WifiSetToDefault"
  let reset ← dictGet data "Reset"
  pure {
    current_min := current_min
    current_hour := current_hour
    run_stop := pyEqOne run_stop
    set_current_speed := set_current_speed
    set_speed_selected := set_speed_selected
    speeds := [sp1, sp2, sp3, sp4]
    speed_titles := [st1, st2, st3, st4]
    schedules := [sch1, sch2, sch3, sch4]
    language := language
    lang_sel := lang_sel
    frozen_enable := pyEqOne frozen_enable
    frozen_lasting_time := frozen_lasting_time
    frozen_speed := frozen_speed
    frozen_temperature := frozen_temperature
    wifi_set_to_default := pyEqOne wifi_set_to_default
    reset := pyEqOne reset }

/-- Python equality between the value argument of a set operation and a
decoded JSON value, as used in the echo comparison response.json() ==
one-key-dict: numbers compare exactly across int and float, a Python
bool equals the ints 1 and 0, a string equals only the same string, and
values of different kinds are otherwise unequal. -/
def valueEqJson (v : Value) (j : Json) : Bool :=
  match v, j with
  | .vInt n, .jnum q => q == (n : ℚ)
  | .vInt n, .jbool b => (b && n == 1) || (!b && n == 0)
  | .vFloat x, .jnum q => q == x
  | .vFloat x, .jbool b => (b && x == 1) || (!b && x == 0)
  | .vStr s, .jstr t => s == t
  | _, _ => false

/-- Python comparison response.json() == single-key-dict: True exactly
when the decoded body is a dict with exactly the one key k whose value
equals v under Python equality; any non-dict body, or a dict of any
other size, compares unequal. -/
def pyDictEqSingleton (body : Json) (k : String) (v : Value) : Bool :=
  match body with
  | .jobj [(k0, j0)] => k0 == k && valueEqJson v j0
  | _ => false

/-- API.get_data: one request; on ClientError raise APIConnectionError
from the cause; otherwise decode the body with EmauxPumpData.from_dict
(the status code is not inspected, and decoding errors are not caught by
the ClientError handler). -/
def get_data (t : TransportResult) : Except ApiError EmauxPumpData × Nat :=
  match t with
  | .netFail cause => (.error (.connectivity cause), 1)
  | .resp _ body => ((EmauxPumpData.from_dict body).mapError .decode, 1)

/-- API.get_settings: one request; like get_data but decoding with
EmauxPumpSettings.from_dict. -/
def get_settings (t : TransportResult) : Except ApiError EmauxPumpSettings × Nat :=
  match t with
  | .netFail cause => (.error (.connectivity cause), 1)
  | .resp _ body => ((EmauxPumpSettings.from_dict body).mapError .decode, 1)

/-- API.set_speed: one request; result is status == 200 and the body
echoing the single pair SetCurrentSpeed: speed. -/
def set_speed (speed : Int) (t : TransportResult) : Except ApiError Bool × Nat :=
  match t with
  | .netFail cause => (.error (.connectivity cause), 1)
  | .resp status body =>
      (.ok (status == 200 && pyDictEqSingleton body "SetCurrentSpeed" (.vInt speed)), 1)

/-- API.turn_on: one request; result is status == 200 and the body
echoing RunStop: 1. -/
def turn_on (t : TransportResult) : Except ApiError Bool × Nat :=
  match t with
  | .netFail cause => (.error (.connectivity cause), 1)
  | .resp status body =>
      (.ok (status == 200 && pyDictEqSingleton body "RunStop" (.vInt 1)), 1)

/-- API.turn_off: one request; result is status == 200 and the body
echoing RunStop: 2. -/
def turn_off (t : TransportResult) : Except ApiError Bool × Nat :=
  match t with
  | .netFail cause => (.error (.connectivity cause), 1)
  | .resp status body =>
      (.ok (status == 200 && pyDictEqSingleton body "RunStop" (.vInt 2)), 1)

/-- API.set_parameter: the validation block runs first and a validation
failure is raised before the HTTP request (zero requests issued);
otherwise one request is issued and the result is status == 200 and the
body echoing name: value. -/
def set_parameter (name : String) (v : Value) (t : TransportResult) :
    Except ApiError Bool × Nat :=
  match validate name v with
  | .error e => (.error (.validation e), 0)
  | .ok () =>
      match t with
      | .netFail cause => (.error (.connectivity cause), 1)
      | .resp status body =>
          (.ok (status == 200 && pyDictEqSingleton body name v), 1)

/-- API.get_parameter: no validation of any kind; one request for every
name, returning the raw decoded body (the status code is not
inspected). -/
def get_parameter (_name : String) (t : TransportResult) : Except ApiError Json × Nat :=
  match t with
  | .netFail cause => (.error (.connectivity cause), 1)
  | .resp _ body => (.ok body, 1)

/-- Inversion of a successful Except bind: the chain succeeds exactly
when the first step succeeds and the continuation succeeds on its
result. -/
theorem excBindOk {ε α β : Type} (e : Except ε α) (f : α → Except ε β) (b : β) :
    (e >>= f = Except.ok b) ↔ ∃ a, e = Except.ok a ∧ f a = Except.ok b := by
  cases e with
  | error err => simp [Bind.bind, Except.bind]
  | ok a => simp [Bind.bind, Except.bind]

/-- Claim C1: a validation failure of set_parameter is raised before any
network request (zero transport calls), set_parameter with
SetCurrentSpeed 5000 fails with OutOfRange and zero calls, set_parameter
with the unregistered name Bogus fails with UnknownParameter and zero
calls, and the validation failure kinds UnknownParameter, OutOfRange,
InvalidEnumValue and TypeMismatch are pairwise distinguishable and
distinct from ConnectivityError. -/
theorem c1_validation_before_network :
    (∀ t, set_parameter "SetCurrentSpeed" (.vInt 5000) t
        = (.error (.validation .outOfRange), 0)) ∧
    (∀ t, set_parameter "Bogus" (.vInt 1) t
        = (.error (.validation .unknownParameter), 0)) ∧
    (∀ name v t e, validate name v = .error e →
        set_parameter name v t = (.error (.validation e), 0)) ∧
    (ValidationError.unknownParameter ≠ .outOfRange ∧
     ValidationError.unknownParameter ≠ .invalidEnumValue ∧
     ValidationError.unknownParameter ≠ .typeMismatch ∧
     ValidationError.outOfRange ≠ .invalidEnumValue ∧
     ValidationError.outOfRange ≠ .typeMismatch ∧
     ValidationError.invalidEnumValue ≠ .typeMismatch) ∧
    (∀ e cause, ApiError.validation e ≠ ApiError.connectivity cause) ∧
    (validate "LangSel" (.vStr "xx") = .error .invalidEnumValue ∧
     validate "Speed1Title" (.vInt 3) = .error .typeMismatch) := by
  refine ⟨fun t => rfl, fun t => rfl, ?_, by decide, ?_, rfl, rfl⟩
  · intro name v t e h
    simp [set_parameter, h]
  · intro e cause h
    exact ApiError.noConfusion h

/-- Witness for C1: the general zero-calls conjunct applied at the
concrete input Bogus, 1 against a live transport. -/
theorem c1_validation_before_network_witness :
    set_parameter "Bogus" (.vInt 1) (.resp 200 .jnull)
      = (.error (.validation .unknownParameter), 0) :=
  c1_validation_before_network.2.2.1 "Bogus" (.vInt 1) (.resp 200 .jnull)
    .unknownParameter rfl

/-- Claim C2: for every parameter registered with a closed range domain,
validation of an integer value succeeds iff lo ≤ v ≤ hi, both endpoints
inclusive, and fails with OutOfRange at lo - 1 and at hi + 1. -/
theorem c2_range_inclusive :
    ∀ name lo hi, lookupParam name = some (.range lo hi) →
      ∀ v : Int,
        (validate name (.vInt v) = .ok () ↔ lo ≤ v ∧ v ≤ hi) ∧
        validate name (.vInt (lo - 1)) = .error .outOfRange ∧
        validate name (.vInt (hi + 1)) = .error .outOfRange := by
  intro name lo hi h v
  refine ⟨?_, ?_, ?_⟩
  · simp [validate, h, pyChainedLe]
  · have hlt : ¬ (lo ≤ lo - 1) := by omega
    simp [validate, h, pyChainedLe, hlt]
  · have hlt : ¬ (hi + 1 ≤ hi) := by omega
    simp [validate, h, pyChainedLe, hlt]

/-- Witness for C2: the range conjuncts at the registered entry
SetCurrentSpeed with domain 800..3400 and the in-range value 1000. -/
theorem c2_range_inclusive_witness :
    (validate "SetCurrentSpeed" (.vInt 1000) = .ok () ↔ 800 ≤ (1000 : Int) ∧ (1000 : Int) ≤ 3400) ∧
    validate "SetCurrentSpeed" (.vInt (800 - 1)) = .error .outOfRange ∧
    validate "SetCurrentSpeed" (.vInt (3400 + 1)) = .error .outOfRange :=
  c2_range_inclusive "SetCurrentSpeed" 800 3400 rfl 1000

/-- Counterexample to claim C3: the float 1000.5 is not integer-typed,
compares within the SetCurrentSpeed range 800..3400, and is NOT
rejected: validation succeeds, the request is issued (one transport
call), and with a matching echo the operation returns true. -/
theorem c3_float_counterexample :
    validate "SetCurrentSpeed" (.vFloat q1000p5) = .ok () ∧
    set_parameter "SetCurrentSpeed" (.vFloat q1000p5)
        (.resp 200 (.jobj [("SetCurrentSpeed", .jnum q1000p5)]))
      = (.ok true, 1) :=
  ⟨rfl, rfl⟩

/-- Claim C3 as amended: for every range-domain parameter the check is
purely the chained numeric comparison lo ≤ v ≤ hi, so a non-integer
float value within the range passes validation (and the request is
issued), while a string value raises an uncaught TypeError rather than a
validation error. -/
theorem c3_range_not_integer_typed :
    ∀ name lo hi, lookupParam name = some (.range lo hi) →
      (∀ q : ℚ, validate name (.vFloat q) = .ok () ↔ (lo : ℚ) ≤ q ∧ q ≤ (hi : ℚ)) ∧
      (∀ s, validate name (.vStr s) = .error .pyTypeError) ∧
      (∀ q : ℚ, ∀ t, validate name (.vFloat q) = .ok () →
         (set_parameter name (.vFloat q) t).2 = 1) := by
  intro name lo hi h
  refine ⟨?_, ?_, ?_⟩
  · intro q
    simp [validate, h, pyChainedLe]
  · intro s
    simp [validate, h, pyChainedLe]
  · intro q t hq
    cases t <;> simp [set_parameter, hq]

/-- Witness for C3 (amended): the float conjunct at SetCurrentSpeed and
the in-range float 1000.5. -/
theorem c3_range_not_integer_typed_witness :
    validate "SetCurrentSpeed" (.vFloat q1000p5) = .ok ()
      ↔ (800 : ℚ) ≤ q1000p5 ∧ q1000p5 ≤ (3400 : ℚ) :=
  (c3_range_not_integer_typed "SetCurrentSpeed" 800 3400 rfl).1 q1000p5

/-- Claim C4: for every parameter registered with an enumerated
token-set domain, validation succeeds iff the value is exactly one of
the registered tokens (a string, compared case-sensitively), and any
non-member string fails with InvalidEnumValue; demonstrated on LangSel,
where en passes but its case variants EN and En fail. -/
theorem c4_enum_membership :
    ∀ name toks, lookupParam name = some (.enumSet toks) →
      (∀ v, validate name v = .ok () ↔ ∃ s, v = .vStr s ∧ s ∈ toks) ∧
      (∀ s, s ∉ toks → validate name (.vStr s) = .error .invalidEnumValue) ∧
      (validate "LangSel" (.vStr "en") = .ok () ∧
       validate "LangSel" (.vStr "EN") = .error .invalidEnumValue ∧
       validate "LangSel" (.vStr "En") = .error .invalidEnumValue) := by
  intro name toks h
  refine ⟨?_, ?_, rfl, rfl, rfl⟩
  · intro v
    cases v with
    | vInt n => simp [validate, h, pyMemStr]
    | vFloat q => simp [validate, h, pyMemStr]
    | vStr s => simp [validate, h, pyMemStr]
  · intro s hs
    simp [validate, h, pyMemStr, hs]

/-- Witness for C4: the membership conjunct at the registered LangSel
entry and the member token cn. -/
theorem c4_enum_membership_witness :
    validate "LangSel" (.vStr "cn") = .ok ()
      ↔ ∃ s, Value.vStr "cn" = .vStr s ∧ s ∈ ["en", "cn", "fr", "de", "es", "it", "ru"] :=
  (c4_enum_membership "LangSel" ["en", "cn", "fr", "de", "es", "it", "ru"] rfl).1
    (.vStr "cn")

/-- Test for the degenerate bare-integer domain kind. -/
def isSinglePoint (d : ParamDomain) : Bool :=
  match d with
  | .singlePoint _ => true
  | _ => false

/-- Claim C5: exactly one registry entry, Language, has a degenerate
domain that is a single bare integer; it is kept as its own domain kind,
and set_parameter with name Language fails validation for every value,
with zero transport calls (in the source the bare int matches none of
the isinstance tests, so the final else branch raises for every
value). -/
theorem c5_language_degenerate_domain :
    ((VALID_PARAMETERS.filter (fun p => isSinglePoint p.2)).map (fun p => p.1)
        = ["Language"]) ∧
    lookupParam "Language" = some (.singlePoint 0) ∧
    (∀ v, validate "Language" v = .error .invalidDomain) ∧
    (∀ v t, set_parameter "Language" v t = (.error (.validation .invalidDomain), 0)) :=
  ⟨rfl, rfl, fun _ => rfl, fun _ _ => rfl⟩

/-- Claim C6: each boolean-returning operation returns true iff the HTTP
status is 200 and the response body is exactly the one-key echo of the
written name and value; a non-200 status or an echo mismatch yields
false, never an exception; in particular set_speed 1500 returns true on
the echo SetCurrentSpeed 1500 and false on SetCurrentSpeed 1400, and
turn_on requires the echo RunStop 1. -/
theorem c6_echo_confirmation :
    (∀ speed status body,
        ((set_speed speed (.resp status body)).1 = .ok true ↔
          status = 200 ∧ pyDictEqSingleton body "SetCurrentSpeed" (.vInt speed) = true) ∧
        ∀ e, (set_speed speed (.resp status body)).1 ≠ .error e) ∧
    (∀ status body,
        ((turn_on (.resp status body)).1 = .ok true ↔
          status = 200 ∧ pyDictEqSingleton body "RunStop" (.vInt 1) = true) ∧
        ∀ e, (turn_on (.resp status body)).1 ≠ .error e) ∧
    (∀ status body,
        ((turn_off (.resp status body)).1 = .ok true ↔
          status = 200 ∧ pyDictEqSingleton body "RunStop" (.vInt 2) = true) ∧
        ∀ e, (turn_off (.resp status body)).1 ≠ .error e) ∧
    (∀ name v status body, validate name v = .ok () →
        ((set_parameter name v (.resp status body)).1 = .ok true ↔
          status = 200 ∧ pyDictEqSingleton body name v = true) ∧
        ∀ e, (set_parameter name v (.resp status body)).1 ≠ .error e) ∧
    set_speed 1500 (.resp 200 (.jobj [("SetCurrentSpeed", .jnum 1500)])) = (.ok true, 1) ∧
    set_speed 1500 (.resp 200 (.jobj [("SetCurrentSpeed", .jnum 1400)])) = (.ok false, 1) ∧
    set_speed 1500 (.resp 404 (.jobj [("SetCurrentSpeed", .jnum 1500)])) = (.ok false, 1) ∧
    turn_on (.resp 200 (.jobj [("RunStop", .jnum 1)])) = (.ok true, 1) ∧
    turn_on (.resp 200 (.jobj [("RunStop", .jnum 0)])) = (.ok false, 1) ∧
    turn_off (.resp 200 (.jobj [("RunStop", .jnum 2)])) = (.ok true, 1) := by
  refine ⟨?_, ?_, ?_, ?_, rfl, rfl, rfl, rfl, rfl, rfl⟩
  · intro speed status body
    constructor
    · simp [set_speed]
    · intro e
      simp [set_speed]
  · intro status body
    constructor
    · simp [turn_on]
    · intro e
      simp [turn_on]
  · intro status body
    constructor
    · simp [turn_off]
    · intro e
      simp [turn_off]
  · intro name v status body h
    constructor
    · simp [set_parameter, h]
    · intro e
      simp [set_parameter, h]

/-- Witness for C6: the set_parameter conjunct at SetCurrentSpeed 1500
with a matching echo body. -/
theorem c6_echo_confirmation_witness :
    ((set_parameter "SetCurrentSpeed" (.vInt 1500)
        (.resp 200 (.jobj [("SetCurrentSpeed", .jnum 1500)]))).1 = .ok true ↔
      200 = 200 ∧ pyDictEqSingleton (.jobj [("SetCurrentSpeed", .jnum 1500)])
        "SetCurrentSpeed" (.vInt 1500) = true) ∧
    ∀ e, (set_parameter "SetCurrentSpeed" (.vInt 1500)
        (.resp 200 (.jobj [("SetCurrentSpeed", .jnum 1500)]))).1 ≠ .error e :=
  c6_echo_confirmation.2.2.2.1 "SetCurrentSpeed" (.vInt 1500) 200
    (.jobj [("SetCurrentSpeed", .jnum 1500)]) rfl

/-- Claim C7: for every operation, a network-level failure (an
aiohttp.ClientError: timeout, connection refused, DNS failure, malformed
transport response) is surfaced as the single error kind
ApiError.connectivity wrapping the underlying cause, and no result is
returned. -/
theorem c7_connectivity_uniform :
    ∀ cause,
      get_data (.netFail cause) = (.error (.connectivity cause), 1) ∧
      get_settings (.netFail cause) = (.error (.connectivity cause), 1) ∧
      (∀ speed, set_speed speed (.netFail cause) = (.error (.connectivity cause), 1)) ∧
      turn_on (.netFail cause) = (.error (.connectivity cause), 1) ∧
      turn_off (.netFail cause) = (.error (.connectivity cause), 1) ∧
      (∀ name, get_parameter name (.netFail cause) = (.error (.connectivity cause), 1)) ∧
      (∀ name v, validate name v = .ok () →
        set_parameter name v (.netFail cause) = (.error (.connectivity cause), 1)) := by
  intro cause
  refine ⟨rfl, rfl, fun _ => rfl, rfl, rfl, fun _ => rfl, ?_⟩
  intro name v h
  simp [set_parameter, h]

/-- Witness for C7: the set_parameter conjunct at SetCurrentSpeed 1500
against a transport that times out. -/
theorem c7_connectivity_uniform_witness :
    set_parameter "SetCurrentSpeed" (.vInt 1500) (.netFail "timeout")
      = (.error (.connectivity "timeout"), 1) :=
  (c7_connectivity_uniform "timeout").2.2.2.2.2.2 "SetCurrentSpeed" (.vInt 1500) rfl

/-- A well-formed pump-state payload with all fourteen wire keys,
parameterised by the values transmitted under CurrentSpeed and
RunningStatus; the temperature travels under the misspelled wire key
CurrentTemperuture, exactly as the device sends it. -/
def pumpPayload (speedJ rsJ : Json) : Json :=
  .jobj [
    ("CurrentTime", .jstr "12:34"),
    ("CurrentSpeed", speedJ),
    ("CurrentWatts", .jstr "320"),
    ("RunningStatus", rsJ),
    ("FaultFlag", .jstr "0"),
    ("FaultCode", .jstr "E0"),
    ("SpeedSelected", .jstr "2"),
    ("CurrentTemperuture", .jstr "25"),
    ("FreeModeStatus", .jstr "0"),
    ("CurrentSchedule", .jstr "1"),
    ("CurrentGPM", .jstr "60"),
    ("SpeedCount", .jstr "4"),
    ("ScheduleCount", .jstr "4"),
    ("Model", .jstr "SPV150")]

/-- The pump payload with the temperature key under the corrected
spelling CurrentTemperature instead of the misspelled wire key the
decoder must read. -/
def pumpPayloadFixedSpelling : Json :=
  .jobj [
    ("CurrentTime", .jstr "12:34"),
    ("CurrentSpeed", .jstr "1500"),
    ("CurrentWatts", .jstr "320"),
    ("RunningStatus", .jstr "1"),
    ("FaultFlag", .jstr "0"),
    ("FaultCode", .jstr "E0"),
    ("SpeedSelected", .jstr "2"),
    ("CurrentTemperature", .jstr "25"),
    ("FreeModeStatus", .jstr "0"),
    ("CurrentSchedule", .jstr "1"),
    ("CurrentGPM", .jstr "60"),
    ("SpeedCount", .jstr "4"),
    ("ScheduleCount", .jstr "4"),
    ("Model", .jstr "SPV150")]

/-- The pump payload with the Model key missing. -/
def pumpPayloadNoModel : Json :=
  .jobj [
    ("CurrentTime", .jstr "12:34"),
    ("CurrentSpeed", .jstr "1500"),
    ("CurrentWatts", .jstr "320"),
    ("RunningStatus", .jstr "1"),
    ("FaultFlag", .jstr "0"),
    ("FaultCode", .jstr "E0"),
    ("SpeedSelected", .jstr "2"),
    ("CurrentTemperuture", .jstr "25"),
    ("FreeModeStatus", .jstr "0"),
    ("CurrentSchedule", .jstr "1"),
    ("CurrentGPM", .jstr "60"),
    ("SpeedCount", .jstr "4"),
    ("ScheduleCount", .jstr "4")]

/-- Claim C8: decoding a well-formed pump-state payload maps every wire
field exactly; boolean-flag fields decode the string "1" to true and any
other value (the string "0", or a non-string) to false; the temperature
is read under the exact misspelled wire key CurrentTemperuture and
exposed as current_temperature, and a payload offering only the
corrected spelling fails with KeyError on the misspelled key; a
non-numeric count field fails with ValueError and a missing key with
KeyError, both surfaced as decoding errors distinct from
ConnectivityError, never defaulted. -/
theorem c8_pump_decode_exact :
    (∀ rsJ, EmauxPumpData.from_dict (pumpPayload (.jstr "1500") rsJ) = .ok {
        current_time := .jstr "12:34"
        current_speed := 1500
        current_watts := 320
        running_status := pyEqOne rsJ
        fault_flag := 0
        fault_code := .jstr "E0"
        speed_selected := 2
        current_temperature := 25
        free_mode_status := false
        current_schedule := 1
        current_gpm := 60
        speed_count := 4
        schedule_count := 4
        model := .jstr "SPV150" }) ∧
    pyEqOne (.jstr "1") = true ∧
    pyEqOne (.jstr "0") = false ∧
    pyEqOne (.jnum 1) = false ∧
    pyEqOne .jnull = false ∧
    EmauxPumpData.from_dict (pumpPayload (.jstr "abc") (.jstr "1"))
      = .error .valueError ∧
    EmauxPumpData.from_dict pumpPayloadFixedSpelling
      = .error (.keyError "CurrentTemperuture") ∧
    EmauxPumpData.from_dict pumpPayloadNoModel = .error (.keyError "Model") ∧
    (∀ e cause, ApiError.decode e ≠ ApiError.connectivity cause) ∧
    get_data (.resp 200 (pumpPayload (.jstr "abc") (.jstr "1")))
      = (.error (.decode .valueError), 1) := by
  refine ⟨fun rsJ => rfl, rfl, rfl, rfl, rfl, rfl, rfl, rfl, ?_, rfl⟩
  intro e cause h
  exact ApiError.noConfusion h

/-- Shape of a decoded settings record relative to its wire payload: the
speeds, speed titles and schedules are ordered four-element collections
whose element at index i - 1 was decoded from wire group i (keys
Speed i, Speed iTitle, and the Sch i group respectively). -/
def SettingsShapeOK (d : Json) (s : EmauxPumpSettings) : Prop :=
  (∃ a1 a2 a3 a4, s.speeds = [a1, a2, a3, a4] ∧
    pyIntAt d "Speed1" = .ok a1 ∧ pyIntAt d "Speed2" = .ok a2 ∧
    pyIntAt d "Speed3" = .ok a3 ∧ pyIntAt d "Speed4" = .ok a4) ∧
  (∃ t1 t2 t3 t4, s.speed_titles = [t1, t2, t3, t4] ∧
    dictGet d "Speed1Title" = .ok t1 ∧ dictGet d "Speed2Title" = .ok t2 ∧
    dictGet d "Speed3Title" = .ok t3 ∧ dictGet d "Speed4Title" = .ok t4) ∧
  (∃ c1 c2 c3 c4, s.schedules = [c1, c2, c3, c4] ∧
    parseSchedule d 1 = .ok c1 ∧ parseSchedule d 2 = .ok c2 ∧
    parseSchedule d 3 = .ok c3 ∧ parseSchedule d 4 = .ok c4)

/-- Claim C9: whenever a settings payload decodes successfully, the wire
keys Speed1..Speed4 (with their titles) and the Sch1..Sch4 groups are
reassembled into ordered collections of exactly four elements each,
element at index i - 1 coming from wire group i. -/
theorem c9_settings_order :
    ∀ d s, EmauxPumpSettings.from_dict d = .ok s →
      s.speeds.length = 4 ∧ s.speed_titles.length = 4 ∧ s.schedules.length = 4 ∧
      SettingsShapeOK d s := by
  intro d s h
  simp only [EmauxPumpSettings.from_dict, excBindOk, pure, Except.pure,
    Except.ok.injEq] at h
  obtain ⟨sp1, h1, sp2, h2, sp3, h3, sp4, h4, st1, g1, st2, g2, st3, g3, st4, g4,
    c1, k1, c2, k2, c3, k3, c4, k4, a1, m1, a2, m2, a3, m3, a4, m4, a5, m5, a6, m6,
    a7, m7, a8, m8, a9, m9, a10, m10, a11, m11, a12, m12, a13, m13, heq⟩ := h
  subst heq
  exact ⟨rfl, rfl, rfl,
    ⟨sp1, sp2, sp3, sp4, rfl, h1, h2, h3, h4⟩,
    ⟨st1, st2, st3, st4, rfl, g1, g2, g3, g4⟩,
    ⟨c1, c2, c3, c4, rfl, k1, k2, k3, k4⟩⟩

/-- A well-formed settings payload with every wire key, each of the four
speed, title and schedule groups carrying values distinct from the other
groups. -/
def settingsPayloadSample : Json :=
  .jobj [
    ("Speed1", .jstr "801"),
    ("Speed2", .jstr "802"),
    ("Speed3", .jstr "803"),
    ("Speed4", .jstr "804"),
    ("Speed1Title", .jstr "A"),
    ("Speed2Title", .jstr "B"),
    ("Speed3Title", .jstr "C"),
    ("Speed4Title", .jstr "D"),
    ("Sch1En", .jstr "1"),
    ("Sch1TimeOnHour", .jstr "1"),
    ("Sch1TimeOnMin", .jstr "11"),
    ("Sch1TimeOffHour", .jstr "5"),
    ("Sch1TimeOffMin", .jstr "21"),
    ("Sch1SpeedSelect", .jstr "1"),
    ("SchTitle1", .jstr "S1"),
    ("Sch2En", .jstr "0"),
    ("Sch2TimeOnHour", .jstr "2"),
    ("Sch2TimeOnMin", .jstr "12"),
    ("Sch2TimeOffHour", .jstr "6"),
    ("Sch2TimeOffMin", .jstr "22"),
    ("Sch2SpeedSelect", .jstr "2"),
    ("SchTitle2", .jstr "S2"),
    ("Sch3En", .jstr "0"),
    ("Sch3TimeOnHour", .jstr "3"),
    ("Sch3TimeOnMin", .jstr "13"),
    ("Sch3TimeOffHour", .jstr "7"),
    ("Sch3TimeOffMin", .jstr "23"),
    ("Sch3SpeedSelect", .jstr "3"),
    ("SchTitle3", .jstr "S3"),
    ("Sch4En", .jstr "0"),
    ("Sch4TimeOnHour", .jstr "4"),
    ("Sch4TimeOnMin", .jstr "14"),
    ("Sch4TimeOffHour", .jstr "8"),
    ("Sch4TimeOffMin", .jstr "24"),
    ("Sch4SpeedSelect", .jstr "4"),
    ("SchTitle4", .jstr "S4"),
    ("CurrentMin", .jstr "30"),
    ("CurrentHour", .jstr "12"),
    ("RunStop", .jstr "1"),
    ("SetCurrentSpeed", .jstr "1500"),
    ("SetSpeedSelected", .jstr "2"),
    ("Language", .jstr "0"),
    ("LangSel", .jstr "en"),
    ("Frozen_Enable", .jstr "0"),
    ("Frozen_LastingTime", .jstr "4"),
    ("Frozen_Speed", .jstr "1500"),
    ("Frozen_Temperature", .jstr "4"),
    ("WifiSetToDefault", .jstr "0"),
    ("Reset", .jstr "0")]

/-- The record that settingsPayloadSample decodes to. -/
def settingsRecordSample : EmauxPumpSettings where
  current_min := 30
  current_hour := 12
  run_stop := true
  set_current_speed := 1500
  set_speed_selected := 2
  speeds := [801, 802, 803, 804]
  speed_titles := [.jstr "A", .jstr "B", .jstr "C", .jstr "D"]
  schedules := [
    ⟨true, 1, 11, 5, 21, 1, .jstr "S1"⟩,
    ⟨false, 2, 12, 6, 22, 2, .jstr "S2"⟩,
    ⟨false, 3, 13, 7, 23, 3, .jstr "S3"⟩,
    ⟨false, 4, 14, 8, 24, 4, .jstr "S4"⟩]
  language := 0
  lang_sel := .jstr "en"
  frozen_enable := false
  frozen_lasting_time := 4
  frozen_speed := 1500
  frozen_temperature := 4
  wifi_set_to_default := false
  reset := false

/-- Witness for C9: the sample settings payload decodes to the sample
record, and the theorem instantiated there yields the ordered
four-element collections. -/
theorem c9_settings_order_witness :
    EmauxPumpSettings.from_dict settingsPayloadSample = .ok settingsRecordSample ∧
    SettingsShapeOK settingsPayloadSample settingsRecordSample :=
  ⟨rfl, (c9_settings_order settingsPayloadSample settingsRecordSample rfl).2.2.2⟩

/-- Claim C10: get_parameter performs no registry validation: for every
name, registered or not, it issues exactly one HTTP request and returns
the raw decoded body, and it never raises a validation error such as
UnknownParameter; demonstrated on the unregistered name Bogus. -/
theorem c10_get_parameter_no_validation :
    (∀ name t, (get_parameter name t).2 = 1 ∧
      ∀ e, (get_parameter name t).1 ≠ .error (.validation e)) ∧
    (∀ name status body, get_parameter name (.resp status body) = (.ok body, 1)) ∧
    lookupParam "Bogus" = none ∧
    get_parameter "Bogus" (.resp 200 .jnull) = (.ok .jnull, 1) := by
  refine ⟨?_, fun name status body => rfl, rfl, rfl⟩
  intro name t
  refine ⟨?_, ?_⟩
  · cases t <;> rfl
  · intro e h
    cases t with
    | netFail cause => exact ApiError.noConfusion (Except.error.inj h)
    | resp status body => exact Except.noConfusion h

/-- Witness for C5: the degenerate-domain failure evaluated at the
concrete value 0 against a live transport. -/
theorem c5_language_degenerate_domain_witness :
    set_parameter "Language" (.vInt 0) (.resp 200 .jnull)
      = (.error (.validation .invalidDomain), 0) :=
  c5_language_degenerate_domain.2.2.2 (.vInt 0) (.resp 200 .jnull)

/-- Witness for C8: the exact field map evaluated at the payload whose
RunningStatus wire value is the string "1". -/
theorem c8_pump_decode_exact_witness :
    EmauxPumpData.from_dict (pumpPayload (.jstr "1500") (.jstr "1")) = .ok {
        current_time := .jstr "12:34"
        current_speed := 1500
        current_watts := 320
        running_status := pyEqOne (.jstr "1")
        fault_flag := 0
        fault_code := .jstr "E0"
        speed_selected := 2
        current_temperature := 25
        free_mode_status := false
        current_schedule := 1
        current_gpm := 60
        speed_count := 4
        schedule_count := 4
        model := .jstr "SPV150" } :=
  c8_pump_decode_exact.1 (.jstr "1")

/-- Witness for C10: get_parameter evaluated at the unregistered name
Bogus returns the raw body after one request. -/
theorem c10_get_parameter_no_validation_witness :
    get_parameter "Bogus" (.resp 200 (.jstr "raw")) = (.ok (.jstr "raw"), 1) :=
  c10_get_parameter_no_validation.2.1 "Bogus" 200 (.jstr "raw")

end Emaux

